import Mathlib

/-!
Verification development for the EasyCare Market B2B catalog service
(`src/app.py`): a shallow embedding of the token manager, the bulk
CSV-import pipeline, the catalog sync endpoints, the product read
endpoints and the quote-request endpoint, with theorems checking the
specification.

Modelling conventions:
- machine time is `Int` seconds; `datetime.now()` becomes an explicit
  `now` parameter; `timedelta(minutes=5)` is 300 seconds.
- Python floats on prices are modelled as `ℚ`; `round(x, 2)` is
  round-half-to-even at two decimals (Python's rounding mode).
- network responses are oracle parameters; fallible parsing returns
  `Option`.
- a CSV payload is modelled at the `csv.DictReader` boundary: a list of
  rows, each row the association list of (column name, cell value) that
  `DictReader` yields, keys in header order and distinct.
-/

namespace EasyCare

/-- Does `pat` occur at the head of `s`? -/
def subListAtHead (pat s : List Char) : Bool :=
  match pat, s with
  | [], _ => true
  | _ :: _, [] => false
  | a :: as, b :: bs => a == b && subListAtHead as bs

/-- Does `pat` occur contiguously anywhere in `s`? -/
def containsChars (pat : List Char) : List Char → Bool
  | [] => pat.isEmpty
  | b :: bs => subListAtHead pat (b :: bs) || containsChars pat bs

/-- Python `pat in s` on strings: `pat` occurs as a contiguous substring. -/
def strContainsSub (s pat : String) : Bool :=
  containsChars pat.data s.data

/-- Python `str.lower()` (ASCII column names only in this feed). -/
def strLower (s : String) : String :=
  String.mk (s.data.map Char.toLower)

/-- Python `str.strip()`: drop leading and trailing whitespace. -/
def pyStrip (cs : List Char) : List Char :=
  ((cs.dropWhile Char.isWhitespace).reverse.dropWhile Char.isWhitespace).reverse

/-- Python `s.replace(c, '')` for a one-character pattern: delete every
occurrence of `c`. -/
def removeChar (c : Char) (cs : List Char) : List Char :=
  cs.filter (fun x => x != c)

/-- Value of a digit character. -/
def digitVal (c : Char) : Nat := c.toNat - 48

/-- Numeric value of a digit string (caller checks `all Char.isDigit`). -/
def digitsToNat (cs : List Char) : Nat :=
  cs.foldl (fun a c => 10 * a + digitVal c) 0

/-- Mantissa of Python `float()`: `digits`, `digits.digits`, `.digits`
or `digits.` (at least one digit). Models `float` on plain decimal
notation; `inf`/`nan` and underscore grouping are treated as
unparseable (they do not occur in the price feeds or the claims). -/
def parseMantissa (cs : List Char) : Option ℚ :=
  match cs.splitOn '.' with
  | [ds] =>
      if ds ≠ [] ∧ ds.all Char.isDigit then some (digitsToNat ds : ℚ) else none
  | [ip, fp] =>
      if (ip ++ fp) ≠ [] ∧ ip.all Char.isDigit ∧ fp.all Char.isDigit then
        some ((digitsToNat ip : ℚ) + (digitsToNat fp : ℚ) / (10 : ℚ) ^ fp.length)
      else none
  | _ => none

/-- Optional sign in front of a parser accepting the rest. -/
def parseSigned (p : List Char → Option ℚ) : List Char → Option ℚ
  | '+' :: rest => p rest
  | '-' :: rest => (p rest).map Neg.neg
  | cs => p cs

/-- Exponent part of Python `float()`: optional sign then digits. -/
def parseExpPart : List Char → Option Int
  | '+' :: ds =>
      if ds ≠ [] ∧ ds.all Char.isDigit then some (digitsToNat ds : Int) else none
  | '-' :: ds =>
      if ds ≠ [] ∧ ds.all Char.isDigit then some (-(digitsToNat ds : Int)) else none
  | ds =>
      if ds ≠ [] ∧ ds.all Char.isDigit then some (digitsToNat ds : Int) else none

/-- Scale a rational by a power of ten with an integer exponent. -/
def scalePow10 (q : ℚ) (e : Int) : ℚ :=
  if 0 ≤ e then q * (10 : ℚ) ^ e.toNat else q / (10 : ℚ) ^ (-e).toNat

/-- Python `float(s)` on decimal notation: strip whitespace, optional
sign, mantissa, optional `e`/`E` exponent; `none` models `ValueError`. -/
def pyFloat (s : String) : Option ℚ :=
  let cs := pyStrip s.data
  match (cs.map fun c => if c = 'E' then 'e' else c).splitOn 'e' with
  | [m] => parseSigned parseMantissa m
  | [m, ex] =>
      match parseSigned parseMantissa m, parseExpPart ex with
      | some mv, some ev => some (scalePow10 mv ev)
      | _, _ => none
  | _ => none

/-- Python `int(s)` in base 10: strip whitespace, optional sign, digits;
`none` models `ValueError`. -/
def pyInt (s : String) : Option Int :=
  match pyStrip s.data with
  | '+' :: ds =>
      if ds ≠ [] ∧ ds.all Char.isDigit then some (digitsToNat ds : Int) else none
  | '-' :: ds =>
      if ds ≠ [] ∧ ds.all Char.isDigit then some (-(digitsToNat ds : Int)) else none
  | ds =>
      if ds ≠ [] ∧ ds.all Char.isDigit then some (digitsToNat ds : Int) else none

/-- Round-half-to-even on ℚ (Python `round` ties-to-even). -/
def roundHalfEven (q : ℚ) : Int :=
  let f := ⌊q⌋
  let r := q - (f : ℚ)
  if r < 1 / 2 then f
  else if 1 / 2 < r then f + 1
  else if f % 2 = 0 then f else f + 1

/-- Python `round(x, 2)` on the ℚ model of prices. -/
def round2 (q : ℚ) : ℚ :=
  (roundHalfEven (q * 100) : ℚ) / 100

/-! ### The products table and the bulk CSV import (`bulk_import_csv`) -/

/-- One row of `products`: the nine columns written by `bulk_import_csv`
(`last_updated` is a DB default, not data the pipeline computes). -/
structure Product where
  gtin : String
  name : String
  category : String
  brand : String
  price : ℚ
  unit : Int
  inventory : Int
  product_link : String
  supplier : String
deriving DecidableEq, Repr

/-- A CSV record as `csv.DictReader` yields it: (column, value) pairs in
header order, keys distinct. -/
abbrev Row := List (String × String)

/-- Python `row.get(k)`. -/
def rowGet (r : Row) (k : String) : Option String :=
  r.lookup k

/-- Python `row.get(k, '')`. -/
def rowGetD (r : Row) (k : String) : String :=
  (r.lookup k).getD ""

/-- Python `row.keys()` in order. -/
def rowKeys (r : Row) : List String :=
  r.map Prod.fst

/-- The price-column search of `bulk_import_csv`: first a column whose
lowercase name contains "price" and ("lowest" or "inc"), else the first
column containing "price". -/
def price_column (r : Row) : Option String :=
  match (rowKeys r).find? (fun col =>
      strContainsSub (strLower col) "price" &&
        (strContainsSub (strLower col) "lowest" || strContainsSub (strLower col) "inc")) with
  | some c => some c
  | none => (rowKeys r).find? (fun col => strContainsSub (strLower col) "price")

/-- Python `str(row[price_column]).replace(',', '').replace('€', '').replace('$', '').strip()`. -/
def stripPrice (v : String) : String :=
  String.mk (pyStrip (removeChar '$' (removeChar '€' (removeChar ',' v.data))))

/-- The price computed for one record. `none` models the `ValueError`
raised by `float` on a non-empty unparseable string, which the
surrounding `except` turns into skipping the record. An absent or
falsy (empty) cell, or a cell that strips to the empty string, yields 0. -/
def rowPrice (r : Row) : Option ℚ :=
  match price_column r with
  | none => some 0
  | some c =>
    match rowGet r c with
    | none => some 0
    | some v =>
      if v = "" then some 0
      else
        let s := stripPrice v
        if s = "" then some 0 else pyFloat s

/-- Python `int(row['Inventory'])` guarded by truthiness, `ValueError` → 0. -/
def rowInventory (r : Row) : Int :=
  match rowGet r "Inventory" with
  | none => 0
  | some v => if v = "" then 0 else (pyInt v).getD 0

/-- Python `int(row.get('Unit', '0')) if row.get('Unit') else 0`; a raise here
(`none`) skips the record, unlike Inventory whose error is swallowed. -/
def rowUnit (r : Row) : Option Int :=
  match rowGet r "Unit" with
  | none => some 0
  | some v => if v = "" then some 0 else pyInt v

/-- The loop body of `bulk_import_csv` on one CSV record: build the
insert tuple, or `none` when a `ValueError`/`KeyError` is raised and the
record is skipped by `continue`. Note `row.get('GTIN', '')`: a missing
GTIN is not an error, the record is kept under the key `""`. -/
def process_row (r : Row) : Option Product :=
  match rowPrice r, rowUnit r with
  | some p, some u =>
      some { gtin := rowGetD r "GTIN", name := rowGetD r "Name",
             category := rowGetD r "Category", brand := rowGetD r "Brand",
             price := p, unit := u, inventory := rowInventory r,
             product_link := rowGetD r "Product Link", supplier := rowGetD r "Supplier" }
  | _, _ => none

/-- SQLite `INSERT OR REPLACE` keyed by the `gtin` primary key: drop any
row with the same key, append the new one. -/
def insert_or_replace (tbl : List Product) (p : Product) : List Product :=
  tbl.filter (fun q => q.gtin != p.gtin) ++ [p]

/-- The function `bulk_import_csv`: `DELETE FROM products` (the fold starts from the
emptied table, `db` — the prior table — is discarded), parse every
record, `executemany` the INSERT OR REPLACE in order, and return
`len(products)`, the count of successfully parsed records. -/
def bulk_import_csv (rows : List Row) (db : List Product) : Nat × List Product :=
  let _ := db
  let products := rows.filterMap process_row
  (products.length, products.foldl insert_or_replace [])

/-! ### Product read endpoints: markup pricing -/

/-- Constant `DEFAULT_MARKUP = 10.0`. -/
def DEFAULT_MARKUP : ℚ := 10

/-- Endpoint `get_products_by_brand`:
`markup_multiplier = 1 + (markup / 100)`,
`round(original_price * markup_multiplier, 2)`. -/
def marked_up_price_brand (price markup : ℚ) : ℚ :=
  let markup_multiplier := 1 + markup / 100
  round2 (price * markup_multiplier)

/-- Endpoint `get_product_details`: `round(original_price * (1 + markup / 100), 2)`. -/
def marked_up_price_details (price markup : ℚ) : ℚ :=
  round2 (price * (1 + markup / 100))

/-! ### Token manager -/

/-- The `TokenManager` fields; `expires_at` is an absolute timestamp in
seconds (or `none`, as after `__init__` with no token file). -/
structure TokenState where
  access_token : Option String
  refresh_token : Option String
  expires_at : Option Int
deriving DecidableEq, Repr

/-- Python truthiness of an optional string (`None` and `''` are falsy). -/
def pyTruthy (o : Option String) : Bool :=
  match o with
  | none => false
  | some s => s ≠ ""

/-- Method `is_token_valid`: falsy access token or missing expiry → False, else
`datetime.now() < self.expires_at - timedelta(minutes=5)`. -/
def is_token_valid (st : TokenState) (now : Int) : Bool :=
  if pyTruthy st.access_token then
    match st.expires_at with
    | some e => decide (now < e - 300)
    | none => false
  else false

/-- Method `save_tokens`: set the three fields, `expires_at = now + expires_in`
(file persistence is a side effect outside the state we reason about). -/
def save_tokens (access : String) (refresh : Option String) (expires_in now : Int) :
    TokenState :=
  { access_token := some access, refresh_token := refresh,
    expires_at := some (now + expires_in) }

/-- A successful `/auth/login/` response: `accessToken`,
optional `refreshToken`, `expires_in` (already defaulted to 3600 by the
caller when the field is absent). -/
structure AuthGrant where
  token : String
  refresh : Option String
  expires_in : Int
deriving DecidableEq, Repr

/-- A successful `/auth/refresh/` response. -/
structure RefreshGrant where
  token : String
  expires_in : Int
deriving DecidableEq, Repr

/-- Method `authenticate()`: on a 200 response save the granted tokens and
return True; on non-200 or exception return False with state unchanged.
The network outcome is the oracle `resp`. -/
def authenticate (st : TokenState) (resp : Option AuthGrant) (now : Int) :
    Bool × TokenState :=
  match resp with
  | some g => (true, save_tokens g.token g.refresh g.expires_in now)
  | none => (false, st)

/-- Method `refresh_access_token()`: on success save the new access token,
keeping the existing refresh token. -/
def refresh_access_token (st : TokenState) (resp : Option RefreshGrant) (now : Int) :
    Bool × TokenState :=
  match resp with
  | some g => (true, save_tokens g.token st.refresh_token g.expires_in now)
  | none => (false, st)

/-- Result of `get_valid_token`, instrumented with how many times
`refresh_access_token` and `authenticate` were invoked. -/
structure TokenResult where
  token : Option String
  st : TokenState
  refresh_calls : Nat
  auth_calls : Nat
deriving DecidableEq, Repr

/-- Method `get_valid_token`: return the cached token if locally valid; else if
a refresh token is (truthily) present try a refresh; on refresh failure
or no refresh token fall through to a full login; `None` if that fails. -/
def get_valid_token (st : TokenState) (now : Int)
    (refreshResp : Option RefreshGrant) (authResp : Option AuthGrant) : TokenResult :=
  if is_token_valid st now then
    { token := st.access_token, st := st, refresh_calls := 0, auth_calls := 0 }
  else if pyTruthy st.refresh_token then
    match refresh_access_token st refreshResp now with
    | (true, st1) => { token := st1.access_token, st := st1, refresh_calls := 1, auth_calls := 0 }
    | (false, st1) =>
      match authenticate st1 authResp now with
      | (true, st2) => { token := st2.access_token, st := st2, refresh_calls := 1, auth_calls := 1 }
      | (false, st2) => { token := none, st := st2, refresh_calls := 1, auth_calls := 1 }
  else
    match authenticate st authResp now with
    | (true, st2) => { token := st2.access_token, st := st2, refresh_calls := 0, auth_calls := 1 }
    | (false, st2) => { token := none, st := st2, refresh_calls := 0, auth_calls := 1 }

/-! ### The sync endpoints (`/api/sync`, `/api/sync-filtered`) -/

/-- One row of the `sync_log` table (the columns `init_database`
declares). -/
structure SyncRecord where
  sync_type : String
  filters_applied : String
  products_imported : Nat
  duration_seconds : ℚ
  status : String
deriving DecidableEq, Repr

/-- Database state the sync endpoints can touch. The brands cache
(`update_brands_cache`) touches only its own table and is omitted. -/
structure ServerState where
  products : List Product
  sync_log : List SyncRecord
deriving DecidableEq, Repr

/-- A supplier response to the authenticated CSV download GET: HTTP
status, and the body already at the `DictReader` boundary. -/
structure HttpResp where
  status : Nat
  body : List Row
deriving DecidableEq, Repr

/-- The JSON a sync endpoint returns. -/
inductive SyncOutcome where
  /-- HTTP 200 `{'success': True, 'imported': n, ...}` -/
  | ok (imported : Nat)
  /-- HTTP 401 `{'error': 'Failed to authenticate with PANDORABOX API'}` -/
  | authError
  /-- HTTP 500 `{'error': 'PANDORABOX API error: <status> - ...'}` -/
  | apiError (status : Nat)
deriving DecidableEq, Repr

/-- Everything observable about one run of a sync endpoint:
the response, the final database and token state, the bearer token of
each GET issued to the download URL in order, and how many POSTs to
`/auth/login/` were made. -/
structure SyncResult where
  outcome : SyncOutcome
  srv : ServerState
  tok : TokenState
  get_tokens : List String
  auth_calls : Nat
deriving DecidableEq, Repr

/-- Endpoint `sync_catalog` (`POST /api/sync`): get a token (falsy → 401 error);
GET the download URL; on a 401 call `get_valid_token` again and, if it
yields a truthy token, retry the same GET once; any final non-200
aborts with an API error; on 200 run `bulk_import_csv` on the body.
`resp1` is the supplier's answer to the first GET, `resp2 t` its answer
to the retry made with bearer token `t`. -/
def sync_catalog (srv : ServerState) (st : TokenState) (now : Int)
    (refreshResp : Option RefreshGrant) (authResp : Option AuthGrant)
    (resp1 : HttpResp) (resp2 : String → HttpResp) : SyncResult :=
  let r1 := get_valid_token st now refreshResp authResp
  match r1.token with
  | none => { outcome := .authError, srv := srv, tok := r1.st,
              get_tokens := [], auth_calls := r1.auth_calls }
  | some t1 =>
    if t1 = "" then
      { outcome := .authError, srv := srv, tok := r1.st,
        get_tokens := [], auth_calls := r1.auth_calls }
    else if resp1.status = 401 then
      let r2 := get_valid_token r1.st now refreshResp authResp
      match r2.token with
      | some t2 =>
        if t2 = "" then
          -- falsy token: no retry, the original 401 falls into the non-200 check
          { outcome := .apiError 401, srv := srv, tok := r2.st,
            get_tokens := [t1], auth_calls := r1.auth_calls + r2.auth_calls }
        else
          let rr := resp2 t2
          if rr.status = 200 then
            { outcome := .ok (bulk_import_csv rr.body srv.products).1,
              srv := { srv with products := (bulk_import_csv rr.body srv.products).2 },
              tok := r2.st, get_tokens := [t1, t2],
              auth_calls := r1.auth_calls + r2.auth_calls }
          else
            { outcome := .apiError rr.status, srv := srv, tok := r2.st,
              get_tokens := [t1, t2], auth_calls := r1.auth_calls + r2.auth_calls }
      | none =>
        { outcome := .apiError 401, srv := srv, tok := r2.st,
          get_tokens := [t1], auth_calls := r1.auth_calls + r2.auth_calls }
    else if resp1.status = 200 then
      { outcome := .ok (bulk_import_csv resp1.body srv.products).1,
        srv := { srv with products := (bulk_import_csv resp1.body srv.products).2 },
        tok := r1.st, get_tokens := [t1], auth_calls := r1.auth_calls }
    else
      { outcome := .apiError resp1.status, srv := srv, tok := r1.st,
        get_tokens := [t1], auth_calls := r1.auth_calls }

/-- Endpoint `sync_filtered` (`POST /api/sync-filtered`) differs from
`sync_catalog` only in appending filter query parameters to the download
URL (reflected here in which oracle responses the supplier gives) and in
returning `duration_seconds`/`filters_applied` inside the 200 JSON; its
token handling, retry logic and database writes are the same code. -/
def sync_filtered (filters : List (String × String)) (srv : ServerState)
    (st : TokenState) (now : Int)
    (refreshResp : Option RefreshGrant) (authResp : Option AuthGrant)
    (resp1 : HttpResp) (resp2 : String → HttpResp) : SyncResult :=
  let _ := filters
  sync_catalog srv st now refreshResp authResp resp1 resp2

/-! ### Quote requests (`POST /api/quote-request`) -/

/-- One client-supplied cart item as the handler reads it:
`item.get('price', 0)` and `item.get('quantity', 0)` come straight from
the request JSON; `gtin` is carried in the stored `items` blob but never
read by the handler. -/
structure QuoteItem where
  gtin : String
  price : ℚ
  quantity : Int
deriving DecidableEq, Repr

/-- The request body fields the handler uses. -/
structure QuoteRequestData where
  customer_name : String
  customer_email : String
  items : List QuoteItem
deriving DecidableEq, Repr

/-- One `order_requests` row (the fields relevant to the claims). -/
structure OrderRequest where
  customer_name : String
  customer_email : String
  items : List QuoteItem
  total_amount : ℚ
deriving DecidableEq, Repr

/-- The total `submit_quote_request` computes:
`total_amount += float(item.get('price', 0)) * int(item.get('quantity', 0))`
over the client's items. -/
def quote_total (items : List QuoteItem) : ℚ :=
  items.foldl (fun acc it => acc + it.price * (it.quantity : ℚ)) 0

/-- Endpoint `submit_quote_request`: validate the three required fields by Python
truthiness, compute the total from the client's items, insert the row.
`catalog` is the products table — passed in to show the handler never
consults it. -/
def submit_quote_request (data : QuoteRequestData) (orders : List OrderRequest)
    (catalog : List Product) : Except String (List OrderRequest) :=
  let _ := catalog
  if data.customer_name = "" then .error "Missing required field: customer_name"
  else if data.customer_email = "" then .error "Missing required field: customer_email"
  else if data.items.isEmpty then .error "Missing required field: items"
  else .ok (orders ++ [{ customer_name := data.customer_name,
                         customer_email := data.customer_email,
                         items := data.items,
                         total_amount := quote_total data.items }])

/-- Modelled from the spec: the total the specification requires —
"sum of line totals, computed server-side from authoritative stored
prices" — i.e. each referenced product's catalog price with markup
applied, times the requested quantity. (No such computation exists in
`src/app.py`; this definition exists only to compare against
`submit_quote_request`.) -/
def spec_quote_total (catalog : List Product) (markup : ℚ) (items : List QuoteItem) : ℚ :=
  items.foldl (fun acc it =>
    acc + (match catalog.find? (fun p => p.gtin == it.gtin) with
           | some p => marked_up_price_brand p.price markup
           | none => 0) * (it.quantity : ℚ)) 0

/-! ### Helper lemmas -/

/-- The last product in `ps` whose `gtin` is `g`. -/
def lastWith (g : String) : List Product → Option Product
  | [] => none
  | p :: ps =>
    match lastWith g ps with
    | some q => some q
    | none => if p.gtin == g then some p else none

theorem mem_of_mem_foldl_insert_or_replace {p : Product} :
    ∀ (ps acc : List Product), p ∈ ps.foldl insert_or_replace acc → p ∈ acc ∨ p ∈ ps := by
  intro ps
  induction ps with
  | nil => intro acc h; exact Or.inl h
  | cons a as ih =>
    intro acc h
    rw [List.foldl_cons] at h
    rcases ih (insert_or_replace acc a) h with h1 | h1
    · unfold insert_or_replace at h1
      rcases List.mem_append.mp h1 with h2 | h2
      · exact Or.inl (List.mem_of_mem_filter h2)
      · simp only [List.mem_singleton] at h2
        exact Or.inr (h2 ▸ List.mem_cons_self a as)
    · exact Or.inr (List.mem_cons_of_mem a h1)

theorem filter_foldl_insert_or_replace (g : String) :
    ∀ (ps acc : List Product),
      (ps.foldl insert_or_replace acc).filter (fun q => q.gtin == g) =
        (match lastWith g ps with
         | some q => [q]
         | none => acc.filter (fun q => q.gtin == g)) := by
  intro ps
  induction ps with
  | nil => intro acc; rfl
  | cons a as ih =>
    intro acc
    rw [List.foldl_cons, ih (insert_or_replace acc a)]
    cases hl : lastWith g as with
    | some q => simp [lastWith, hl]
    | none =>
      simp only [lastWith, hl]
      unfold insert_or_replace
      rw [List.filter_append, List.filter_filter]
      cases hg : (a.gtin == g) with
      | true =>
        have hag : a.gtin = g := eq_of_beq hg
        have hnil : acc.filter (fun q => (q.gtin == g) && (q.gtin != a.gtin)) = [] := by
          apply List.filter_eq_nil_iff.mpr
          intro x _
          cases hxg : (x.gtin == g) with
          | true => simp [eq_of_beq hxg, hag]
          | false => simp [hxg]
        simp [hnil, hg]
      | false =>
        have hcong : acc.filter (fun q => (q.gtin == g) && (q.gtin != a.gtin)) =
            acc.filter (fun q => q.gtin == g) := by
          apply List.filter_congr
          intro x _
          cases hxg : (x.gtin == g) with
          | true =>
            have : x.gtin ≠ a.gtin := by
              intro hxa
              rw [eq_of_beq hxg] at hxa
              exact (ne_of_beq_false hg).symm hxa
            simp [hxg, this]
          | false => simp [hxg]
        simp [hcong, hg]

/-- A record with no GTIN column is stored under the empty-string key. -/
theorem gtin_of_missing_gtin (r : Row) (p : Product)
    (hg : rowGet r "GTIN" = none) (hp : process_row r = some p) : p.gtin = "" := by
  unfold process_row at hp
  cases hP : rowPrice r with
  | none => rw [hP] at hp; cases hp
  | some q =>
    cases hU : rowUnit r with
    | none => rw [hP, hU] at hp; cases hp
    | some u =>
      rw [hP, hU] at hp
      injection hp with hp
      rw [← hp]
      unfold rowGet at hg
      simp [rowGetD, hg]

/-! ### The claims -/

/-- Claim C7: the token validity check returns true exactly when a
(truthy) access token is present, an expiry is present, and the current
time is strictly before expiry minus the 300-second safety margin. -/
theorem C7_is_token_valid_iff (st : TokenState) (now : Int) :
    is_token_valid st now = true ↔
      ((∃ s, st.access_token = some s ∧ s ≠ "") ∧
       (∃ e, st.expires_at = some e ∧ now < e - 300)) := by
  obtain ⟨a, r, e⟩ := st
  cases a with
  | none => simp [is_token_valid, pyTruthy]
  | some s =>
    cases e with
    | none => simp [is_token_valid, pyTruthy]
    | some ex =>
      by_cases hs : s = ""
      · subst hs; simp [is_token_valid, pyTruthy]
      · simp [is_token_valid, pyTruthy, hs]

/-- Claim C8: both product-read endpoints compute the selling price by
the same formula `round(price * (1 + markup / 100), 2)` — a function of
the stored price and the markup only — and `base_price = 7.50` with
`markup = 10` yields `8.25`. -/
theorem C8_selling_price :
    (∀ price markup : ℚ,
      marked_up_price_brand price markup = round2 (price * (1 + markup / 100)) ∧
      marked_up_price_details price markup = round2 (price * (1 + markup / 100))) ∧
    marked_up_price_brand (15 / 2) 10 = 33 / 4 ∧
    marked_up_price_details (15 / 2) 10 = 33 / 4 := by
  refine ⟨fun p m => ⟨rfl, rfl⟩, ?_, ?_⟩ <;>
  · simp only [marked_up_price_brand, marked_up_price_details, round2, roundHalfEven]
    norm_num

/-- Claim C9: the bulk import is an idempotent full replace — importing
the same payload twice leaves the table (and count) as after one run,
the result is independent of the prior table contents (all prior rows
are deleted first), and every stored row comes from the latest feed. -/
theorem C9_idempotent_full_replace (rows : List Row) (db db' : List Product)
    (p : Product) (hp : p ∈ (bulk_import_csv rows db).2) :
    (bulk_import_csv rows (bulk_import_csv rows db).2).2 = (bulk_import_csv rows db).2 ∧
    (bulk_import_csv rows (bulk_import_csv rows db).2).1 = (bulk_import_csv rows db).1 ∧
    bulk_import_csv rows db' = bulk_import_csv rows db ∧
    p ∈ rows.filterMap process_row := by
  refine ⟨rfl, rfl, rfl, ?_⟩
  rcases mem_of_mem_foldl_insert_or_replace (rows.filterMap process_row) [] hp with h | h
  · cases h
  · exact h

/-- Claim C9 witness at a concrete one-row feed. -/
theorem C9_idempotent_full_replace_witness :
    (bulk_import_csv [[("GTIN", "A")]]
        (bulk_import_csv [[("GTIN", "A")]] []).2).2 =
      (bulk_import_csv [[("GTIN", "A")]] []).2 ∧
    (bulk_import_csv [[("GTIN", "A")]]
        (bulk_import_csv [[("GTIN", "A")]] []).2).1 =
      (bulk_import_csv [[("GTIN", "A")]] []).1 ∧
    bulk_import_csv [[("GTIN", "A")]] [⟨"B", "", "", "", 0, 0, 0, "", ""⟩] =
      bulk_import_csv [[("GTIN", "A")]] [] ∧
    (⟨"A", "", "", "", 0, 0, 0, "", ""⟩ : Product) ∈
      ([[("GTIN", "A")]] : List Row).filterMap process_row :=
  C9_idempotent_full_replace [[("GTIN", "A")]] [] [⟨"B", "", "", "", 0, 0, 0, "", ""⟩]
    ⟨"A", "", "", "", 0, 0, 0, "", ""⟩ (by decide)

/-- Claim C10: `bulk_import_csv` returns the number of successfully
parsed records, while the table keeps exactly one row per distinct GTIN
— the last parsed occurrence — with GTIN-less records collapsing onto
the empty-string key; on a feed with a duplicated GTIN the reported
count strictly exceeds the stored row count. -/
theorem C10_imported_count_vs_table (rows : List Row) (db : List Product) (g : String)
    (r : Row) (p : Product) (hg : rowGet r "GTIN" = none) (hp : process_row r = some p) :
    (bulk_import_csv rows db).1 = (rows.filterMap process_row).length ∧
    ((bulk_import_csv rows db).2.filter (fun q => q.gtin == g) =
      (match lastWith g (rows.filterMap process_row) with
       | some q => [q]
       | none => [])) ∧
    p.gtin = "" ∧
    (bulk_import_csv [[("GTIN", "A"), ("Name", "x")], [("GTIN", "A"), ("Name", "y")]] []).2.length
      < (bulk_import_csv [[("GTIN", "A"), ("Name", "x")], [("GTIN", "A"), ("Name", "y")]] []).1 := by
  refine ⟨rfl, ?_, gtin_of_missing_gtin r p hg hp, by decide⟩
  have h := filter_foldl_insert_or_replace g (rows.filterMap process_row) []
  rw [show (bulk_import_csv rows db).2 = (rows.filterMap process_row).foldl insert_or_replace []
      from rfl, h]
  cases lastWith g (rows.filterMap process_row) <;> rfl

/-- Claim C10 witness at a concrete feed and key. -/
theorem C10_imported_count_vs_table_witness :
    (bulk_import_csv [[("GTIN", "A")]] []).1 =
      (([[("GTIN", "A")]] : List Row).filterMap process_row).length ∧
    ((bulk_import_csv [[("GTIN", "A")]] []).2.filter (fun q => q.gtin == "A") =
      (match lastWith "A" (([[("GTIN", "A")]] : List Row).filterMap process_row) with
       | some q => [q]
       | none => [])) ∧
    Product.gtin ⟨"", "x", "", "", 0, 0, 0, "", ""⟩ = "" ∧
    (bulk_import_csv [[("GTIN", "A"), ("Name", "x")], [("GTIN", "A"), ("Name", "y")]] []).2.length
      < (bulk_import_csv [[("GTIN", "A"), ("Name", "x")], [("GTIN", "A"), ("Name", "y")]] []).1 :=
  C10_imported_count_vs_table [[("GTIN", "A")]] [] "A" [("Name", "x")]
    ⟨"", "x", "", "", 0, 0, 0, "", ""⟩ rfl (by decide)

/-- Claim C2 (code evaluation): neither `sync_catalog` nor
`sync_filtered` ever writes to `sync_log` — on every control path the
sync-run history is left exactly as it was, so no record with status
'running' is created and none is closed. -/
theorem C2_sync_log_never_written (filters : List (String × String)) (srv : ServerState)
    (st : TokenState) (now : Int) (rR : Option RefreshGrant) (aR : Option AuthGrant)
    (resp1 : HttpResp) (resp2 : String → HttpResp) :
    (sync_catalog srv st now rR aR resp1 resp2).srv.sync_log = srv.sync_log ∧
    (sync_filtered filters srv st now rR aR resp1 resp2).srv.sync_log = srv.sync_log := by
  have h : (sync_catalog srv st now rR aR resp1 resp2).srv.sync_log = srv.sync_log := by
    simp only [sync_catalog]
    repeat' split
    all_goals rfl
  exact ⟨h, h⟩

/-- A valid-by-margin token state has a truthy access token. -/
theorem access_of_valid (st : TokenState) (now : Int)
    (h : is_token_valid st now = true) :
    ∃ t, st.access_token = some t ∧ t ≠ "" := by
  unfold is_token_valid pyTruthy at h
  cases ha : st.access_token with
  | none => rw [ha] at h; simp at h
  | some s =>
    rw [ha] at h
    by_cases hs : s = ""
    · subst hs; simp at h
    · exact ⟨s, rfl, hs⟩

/-- Claim C1 counterexample: a quote request whose item carries a
client-chosen price of 1 for a product whose stored catalog price is 10
(selling price 11 at the default markup) is stored with
`total_amount = 1`, not the server-side catalog total 11. -/
theorem C1_counterexample_client_price_trusted :
    submit_quote_request ⟨"Alice", "alice@example.com", [⟨"G1", 1, 1⟩]⟩ []
        [⟨"G1", "Product", "", "Brand", 10, 0, 5, "", ""⟩] =
      .ok [⟨"Alice", "alice@example.com", [⟨"G1", 1, 1⟩], 1⟩] ∧
    spec_quote_total [⟨"G1", "Product", "", "Brand", 10, 0, 5, "", ""⟩] DEFAULT_MARKUP
        [⟨"G1", 1, 1⟩] = 11 ∧
    (1 : ℚ) ≠ 11 := by
  refine ⟨?_, ?_, by norm_num⟩
  · simp only [submit_quote_request, quote_total]
    norm_num
    rw [if_neg (by decide), if_neg (by decide)]
  · simp only [spec_quote_total, marked_up_price_brand, round2, roundHalfEven,
      DEFAULT_MARKUP, List.find?, List.foldl]
    norm_num

/-- Claim C1 amended: the stored `total_amount` is the sum over the
client's items of the client-supplied price times quantity; the catalog
is never consulted (the result is identical for any catalog contents). -/
theorem C1_total_from_client_items (data : QuoteRequestData) (orders : List OrderRequest)
    (catalog catalog' : List Product) (os : List OrderRequest)
    (hok : submit_quote_request data orders catalog = .ok os) :
    submit_quote_request data orders catalog = submit_quote_request data orders catalog' ∧
    os = orders ++ [{ customer_name := data.customer_name,
                      customer_email := data.customer_email,
                      items := data.items,
                      total_amount := quote_total data.items }] := by
  refine ⟨rfl, ?_⟩
  unfold submit_quote_request at hok
  repeat' split at hok
  · cases hok
  · cases hok
  · cases hok
  · injection hok with h
    exact h.symm

/-- Claim C1 witness: a concrete accepted request. -/
theorem C1_total_from_client_items_witness :
    submit_quote_request ⟨"A", "e", [⟨"G", 2, 3⟩]⟩ [] [] =
      submit_quote_request ⟨"A", "e", [⟨"G", 2, 3⟩]⟩ []
        [⟨"G", "", "", "", 5, 0, 0, "", ""⟩] ∧
    [⟨"A", "e", [⟨"G", 2, 3⟩], quote_total [⟨"G", 2, 3⟩]⟩] =
      ([] : List OrderRequest) ++
        [{ customer_name := "A", customer_email := "e", items := [⟨"G", 2, 3⟩],
           total_amount := quote_total [⟨"G", 2, 3⟩] }] :=
  C1_total_from_client_items ⟨"A", "e", [⟨"G", 2, 3⟩]⟩ [] []
    [⟨"G", "", "", "", 5, 0, 0, "", ""⟩]
    [⟨"A", "e", [⟨"G", 2, 3⟩], quote_total [⟨"G", 2, 3⟩]⟩] rfl

/-- Claim C3 counterexample: with a cached token that is still locally
valid, a 401 from the supplier triggers no invalidation and no
re-authentication — `get_valid_token` hands back the same cached token
(zero `/auth/login/` calls, token state unchanged) and the single retry
is made with that same token, after which the run aborts. -/
theorem C3_counterexample_no_reauth_on_401 :
    (sync_catalog ⟨[], []⟩ ⟨some "tokA", some "r", some 10000⟩ 0 none none
        ⟨401, []⟩ (fun _ => ⟨401, []⟩)).auth_calls = 0 ∧
    (sync_catalog ⟨[], []⟩ ⟨some "tokA", some "r", some 10000⟩ 0 none none
        ⟨401, []⟩ (fun _ => ⟨401, []⟩)).get_tokens = ["tokA", "tokA"] ∧
    (sync_catalog ⟨[], []⟩ ⟨some "tokA", some "r", some 10000⟩ 0 none none
        ⟨401, []⟩ (fun _ => ⟨401, []⟩)).tok = ⟨some "tokA", some "r", some 10000⟩ ∧
    (sync_catalog ⟨[], []⟩ ⟨some "tokA", some "r", some 10000⟩ 0 none none
        ⟨401, []⟩ (fun _ => ⟨401, []⟩)).outcome = .apiError 401 := by
  refine ⟨?_, ?_, ?_, ?_⟩ <;> rfl

/-- Claim C3 amended: on a 401 the code merely calls `get_valid_token`
again — it does not invalidate the cached token — so while the cache is
still locally valid the single retry reuses the very same token with no
re-authentication; the request is retried exactly once, a non-200 after
the retry aborts the run with an API error, and a 200 imports the body. -/
theorem C3_retry_reuses_cached_token (srv : ServerState) (st : TokenState) (now : Int)
    (rR : Option RefreshGrant) (aR : Option AuthGrant) (resp1 : HttpResp)
    (resp2 : String → HttpResp) (t : String)
    (ht : st.access_token = some t)
    (h401 : resp1.status = 401) (hvalid : is_token_valid st now = true) :
    t ≠ "" ∧
    (sync_catalog srv st now rR aR resp1 resp2).auth_calls = 0 ∧
    (sync_catalog srv st now rR aR resp1 resp2).tok = st ∧
    (sync_catalog srv st now rR aR resp1 resp2).get_tokens = [t, t] ∧
    ((resp2 t).status = 200 →
      (sync_catalog srv st now rR aR resp1 resp2).outcome =
        .ok (bulk_import_csv (resp2 t).body srv.products).1) ∧
    ((resp2 t).status ≠ 200 →
      (sync_catalog srv st now rR aR resp1 resp2).outcome = .apiError (resp2 t).status) := by
  obtain ⟨t0, ht0, htne0⟩ := access_of_valid st now hvalid
  rw [ht] at ht0
  injection ht0 with ht0
  subst ht0
  have hg : get_valid_token st now rR aR =
      { token := st.access_token, st := st, refresh_calls := 0, auth_calls := 0 } := by
    unfold get_valid_token
    rw [if_pos hvalid]
  refine ⟨htne0, ?_, ?_, ?_, ?_, ?_⟩ <;>
    simp only [sync_catalog, hg, ht, h401] <;>
    simp [htne0] <;>
    first
      | rfl
      | (split <;> rfl)
      | (intro h; simp [h])

/-- Claim C3 witness: concrete cached-valid state, 401 then 500. -/
theorem C3_retry_reuses_cached_token_witness :
    "a" ≠ "" ∧
    (sync_catalog ⟨[], []⟩ ⟨some "a", none, some 1000⟩ 0 none none ⟨401, []⟩
        (fun _ => ⟨500, []⟩)).auth_calls = 0 ∧
    (sync_catalog ⟨[], []⟩ ⟨some "a", none, some 1000⟩ 0 none none ⟨401, []⟩
        (fun _ => ⟨500, []⟩)).tok = ⟨some "a", none, some 1000⟩ ∧
    (sync_catalog ⟨[], []⟩ ⟨some "a", none, some 1000⟩ 0 none none ⟨401, []⟩
        (fun _ => ⟨500, []⟩)).get_tokens = ["a", "a"] ∧
    (((fun (_ : String) => (⟨500, []⟩ : HttpResp)) "a").status = 200 →
      (sync_catalog ⟨[], []⟩ ⟨some "a", none, some 1000⟩ 0 none none ⟨401, []⟩
          (fun _ => ⟨500, []⟩)).outcome =
        .ok (bulk_import_csv ((fun (_ : String) => (⟨500, []⟩ : HttpResp)) "a").body
          (⟨[], []⟩ : ServerState).products).1) ∧
    (((fun (_ : String) => (⟨500, []⟩ : HttpResp)) "a").status ≠ 200 →
      (sync_catalog ⟨[], []⟩ ⟨some "a", none, some 1000⟩ 0 none none ⟨401, []⟩
          (fun _ => ⟨500, []⟩)).outcome = .apiError
            ((fun (_ : String) => (⟨500, []⟩ : HttpResp)) "a").status) :=
  C3_retry_reuses_cached_token ⟨[], []⟩ ⟨some "a", none, some 1000⟩ 0 none none ⟨401, []⟩
    (fun _ => ⟨500, []⟩) "a" rfl rfl (by decide)

/-- Claim C4 counterexample: a CSV record with no GTIN column at all is
not treated as an error — `bulk_import_csv` stores it under the
empty-string key and counts it as imported. -/
theorem C4_counterexample_missing_gtin_stored :
    bulk_import_csv [[("Name", "x"), ("Brand", "b")]] [] =
      (1, [⟨"", "x", "", "b", 0, 0, 0, "", ""⟩]) := by
  decide

/-- Claim C4 amended: a record whose price or unit parsing raises is
skipped without aborting the rest of the batch (though no error count
is kept), while a record merely missing its GTIN is not an error: it is
parsed and stored under the empty-string key. -/
theorem C4_parse_error_skips_record (pre post : List Row) (r r2 : Row)
    (db : List Product) (p : Product)
    (h : process_row r = none) (hg : rowGet r2 "GTIN" = none)
    (hp : process_row r2 = some p) :
    bulk_import_csv (pre ++ r :: post) db = bulk_import_csv (pre ++ post) db ∧
    p.gtin = "" := by
  refine ⟨?_, gtin_of_missing_gtin r2 p hg hp⟩
  have hfm : (pre ++ r :: post).filterMap process_row =
      (pre ++ post).filterMap process_row := by
    simp [List.filterMap_append, List.filterMap_cons, h]
  simp [bulk_import_csv, hfm]

/-- Claim C4 witness: an unparseable price skips only that record; a
GTIN-less record parses with key `""`. -/
theorem C4_parse_error_skips_record_witness :
    bulk_import_csv ([] ++ [("GTIN", "1"), ("Price", "abc")] :: [[("GTIN", "2")]]) [] =
      bulk_import_csv ([] ++ [[("GTIN", "2")]]) [] ∧
    Product.gtin ⟨"", "x", "", "", 0, 0, 0, "", ""⟩ = "" :=
  C4_parse_error_skips_record [] [[("GTIN", "2")]] [("GTIN", "1"), ("Price", "abc")]
    [("Name", "x")] [] ⟨"", "x", "", "", 0, 0, 0, "", ""⟩ (by decide) rfl (by decide)

/-- Claim C5 counterexample: the price string "abc" is invalid but
non-empty after stripping, so `float` raises and the whole record is
skipped — it is not coerced to price zero and stored. -/
theorem C5_counterexample_invalid_price_skips :
    bulk_import_csv [[("GTIN", "1"), ("Price", "abc")]] [] = (0, []) := by
  decide

/-- Claim C5 amended: the parser strips separators and currency symbols
("1,234.50€" → "1234.50", which parses to 1234.50) and coerces an empty
or whitespace-only price cell to zero, but a non-empty stripped string
that `float` cannot parse raises and the record is skipped rather than
being stored with price zero. -/
theorem C5_price_parsing (r : Row) (c v : String) (r0 : Row) (c0 : String)
    (hc : price_column r = some c) (hv : rowGet r c = some v)
    (hs : stripPrice v ≠ "") (hf : pyFloat (stripPrice v) = none)
    (hc0 : price_column r0 = some c0) (hv0 : rowGet r0 c0 = some "") :
    process_row r = none ∧
    rowPrice r0 = some 0 ∧
    stripPrice "1,234.50€" = "1234.50" ∧
    rowPrice [("GTIN", "1"), ("Price Inc", "1,234.50€")] = some (2469 / 2) := by
  have hvne : v ≠ "" := by
    intro hv0'
    subst hv0'
    exact hs rfl
  have hrp : rowPrice r = none := by
    simp only [rowPrice, hc, hv]
    rw [if_neg hvne]
    show (if stripPrice v = "" then some 0 else pyFloat (stripPrice v)) = none
    rw [if_neg hs, hf]
  refine ⟨?_, ?_, by decide, ?_⟩
  · unfold process_row
    rw [hrp]
  · simp only [rowPrice, hc0, hv0]
    simp
  · have h0 : rowPrice [("GTIN", "1"), ("Price Inc", "1,234.50€")] =
        pyFloat "1234.50" := rfl
    have h1 : pyFloat "1234.50" =
        some ((digitsToNat ['1', '2', '3', '4'] : ℚ) +
          (digitsToNat ['5', '0'] : ℚ) / (10 : ℚ) ^ (2 : Nat)) := rfl
    have h2 : digitsToNat ['1', '2', '3', '4'] = 1234 := by decide
    have h3 : digitsToNat ['5', '0'] = 50 := by decide
    rw [h0, h1, h2, h3]
    norm_num

/-- Claim C5 witness: concrete invalid and empty price cells. -/
theorem C5_price_parsing_witness :
    process_row [("GTIN", "1"), ("Price", "abc")] = none ∧
    rowPrice [("Price", "")] = some 0 ∧
    stripPrice "1,234.50€" = "1234.50" ∧
    rowPrice [("GTIN", "1"), ("Price Inc", "1,234.50€")] = some (2469 / 2) :=
  C5_price_parsing [("GTIN", "1"), ("Price", "abc")] "Price" "abc" [("Price", "")]
    "Price" rfl rfl (by decide) (by decide) rfl rfl

/-- Claim C6 counterexample: when the supplier's refresh grant carries
`expires_in = 60` (less than the 300-second margin), `get_valid_token`
returns the freshly saved token even though it already fails the
validity check at the moment of return. -/
theorem C6_counterexample_short_grant :
    (get_valid_token ⟨some "old", some "r", some 100⟩ 1000 (some ⟨"new", 60⟩) none).token =
      some "new" ∧
    is_token_valid
      (get_valid_token ⟨some "old", some "r", some 100⟩ 1000 (some ⟨"new", 60⟩) none).st
      1000 = false := by
  refine ⟨rfl, by decide⟩

/-- Claim C6 amended: `get_valid_token` re-checks nothing after a
refresh or login, so the returned token satisfies the validity check at
the moment of return provided every grant the supplier issues carries a
non-empty access token and `expires_in` strictly greater than the
300-second safety margin. -/
theorem C6_returned_token_valid (st : TokenState) (now : Int)
    (rR : Option RefreshGrant) (aR : Option AuthGrant) (t : String)
    (hr : ∀ g, rR = some g → 300 < g.expires_in ∧ g.token ≠ "")
    (ha : ∀ g, aR = some g → 300 < g.expires_in ∧ g.token ≠ "")
    (hret : (get_valid_token st now rR aR).token = some t) :
    is_token_valid (get_valid_token st now rR aR).st now = true := by
  by_cases hv : is_token_valid st now = true
  · unfold get_valid_token
    rw [if_pos hv]
    exact hv
  · have hv' : is_token_valid st now = false := by
      cases h : is_token_valid st now
      · rfl
      · exact absurd h hv
    unfold get_valid_token at hret ⊢
    rw [hv'] at hret ⊢
    by_cases hrt : pyTruthy st.refresh_token = true
    · rw [if_neg (by simp), if_pos hrt] at hret ⊢
      cases hrR : rR with
      | some g =>
        obtain ⟨hgt, hgn⟩ := hr g hrR
        subst hrR
        simp only [refresh_access_token, save_tokens, is_token_valid, pyTruthy]
        simp [hgn]
        omega
      | none =>
        subst hrR
        simp only [refresh_access_token] at hret ⊢
        cases haR : aR with
        | some g =>
          obtain ⟨hgt, hgn⟩ := ha g haR
          subst haR
          simp only [authenticate, save_tokens, is_token_valid, pyTruthy]
          simp [hgn]
          omega
        | none =>
          subst haR
          simp only [authenticate] at hret
          cases hret
    · rw [if_neg (by simp), if_neg hrt] at hret ⊢
      cases haR : aR with
      | some g =>
        obtain ⟨hgt, hgn⟩ := ha g haR
        subst haR
        simp only [authenticate, save_tokens, is_token_valid, pyTruthy]
        simp [hgn]
        omega
      | none =>
        subst haR
        simp only [authenticate] at hret
        cases hret

/-- Claim C6 witness: a cached-valid token is returned and valid. -/
theorem C6_returned_token_valid_witness :
    is_token_valid (get_valid_token ⟨some "a", none, some 1000⟩ 0 none none).st 0 = true :=
  C6_returned_token_valid ⟨some "a", none, some 1000⟩ 0 none none "a"
    (fun _ h => nomatch h) (fun _ h => nomatch h) rfl

end EasyCare
